import Mathlib

/-!
Shallow embedding of the resistor-color-duo analyzer
(src/src/analyzers/resistor-color-duo/index.ts).

The analyzer extracts facts from a parsed submission (the exported `value`
function, the named export node, the top-level constants), runs an ordered
sequence of checks (structure, signature, optimality, tips) and terminates
with exactly one verdict (Approved, Disapproved, ReferredToMentor) plus an
ordered comment list.

The fact extractors (`extractMainMethod`, `extractExport`,
`findTopLevelConstants`), the comment factories of `src/comments/shared`,
the parameter accessors (`parameterName`, `annotateType`) and the base class
`AnalyzerImpl` (comment accumulation, `approve`/`disapprove` early
termination, default ReferredToMentor outcome) are not part of the provided
sources; they are modelled from the spec where noted. Everything else is a
direct translation of `ResistorColorDuoAnalyzer`.
-/

namespace ResistorColorDuo

/-- AST node type tags, the subset of `AST_NODE_TYPES` inspected by the
analyzer (initializer shapes of top-level constants). `NewExpression` covers
`new Map(...)` tables, `ObjectExpression` covers object-literal tables. -/
inductive NodeType where
  | ArrayExpression
  | ObjectExpression
  | FunctionExpression
  | ArrowFunctionExpression
  | NewExpression
  | Literal
  | CallExpression
deriving DecidableEq

/-- AST node type tags for function parameters, the subset relevant to
`checkSignature`: the analyzer tests `firstParameter.type ===
AST_NODE_TYPES.RestElement`. -/
inductive ParamType where
  | Identifier
  | AssignmentPattern
  | RestElement
  | ArrayPattern
  | ObjectPattern
deriving DecidableEq

/-- A function parameter: its node type, its name, and the text of its type
annotation when one exists. -/
structure Param where
  ptype : ParamType
  name : String
  annotatedType : Option String
deriving DecidableEq

/-- Modelled from the spec: `parameterName` of
`~src/analyzers/utils/extract_parameter` (not under the provided sources) is
the parameter-name accessor used only for the splat-argument comment. -/
def parameterName (p : Param) : String :=
  p.name

/-- Modelled from the spec: `annotateType` of
`~src/analyzers/utils/type_annotations` (not under the provided sources)
yields the declared/annotated type of a parameter, or "untyped" when no
annotation exists. -/
def annotateType : Option String → String
  | some t => t
  | none => "untyped"

/-- The extracted main method (result of `extractMainMethod(program,
"value")`): the function bound to `value`, with its identifier name (read
as `method.id!.name`) and its parameter list. -/
structure MainMethod where
  idName : String
  params : List Param
deriving DecidableEq

/-- The extracted export node (first component of `extractExport(program,
"value")`): an export declaration with its specifier list. An inline
`export function value` has no specifiers; `export { value }` has some. -/
structure ExportDecl where
  specifiers : List String
deriving DecidableEq

/-- A top-level constant (element of `findTopLevelConstants(program,
["let", "const", "var"])`): its name, declaration kind, the node type of
its initializer (the analyzer reads `c.init!.type`), and, when the
initializer is an object or map literal, its property keys. -/
structure TopLevelConstant where
  name : String
  kind : String
  init : NodeType
  objectKeys : List String
deriving DecidableEq

/-- Modelled from the spec: the facts bundle produced by the external fact
extractors of section 4.1 (`extractMainMethod`, `extractExport`,
`findTopLevelConstants` are not under the provided sources). The analyzer
reads exactly these three memoized extracts of the parsed program. -/
structure SubmissionFacts where
  mainMethod : Option MainMethod
  mainExport : Option ExportDecl
  mainConstants : List TopLevelConstant
deriving DecidableEq

/-- Comment template identifiers used by the analyzer: the four blocking
comments of `src/comments/shared` and the inline-export tip declared in the
analyzer itself. -/
inductive CommentId where
  | NO_METHOD
  | NO_NAMED_EXPORT
  | NO_PARAMETER
  | UNEXPECTED_SPLAT_ARGS
  | TIP_EXPORT_INLINE
deriving DecidableEq

/-- A comment: a template identifier plus a parameter mapping for template
interpolation. Rendering is external. -/
structure Comment where
  id : CommentId
  params : List (String × String)
deriving DecidableEq

/-- Modelled from the spec: severity class of a comment. The four shared
comments are blocking; the inline-export tip is advisory. -/
def Comment.blocking (c : Comment) : Bool :=
  c.id ≠ CommentId.TIP_EXPORT_INLINE

/-- Modelled from the spec: the `NO_METHOD` comment factory of
`src/comments/shared` applied as in the analyzer. -/
def mkNoMethod (methodName : String) : Comment :=
  ⟨CommentId.NO_METHOD, [("method.name", methodName)]⟩

/-- Modelled from the spec: the `NO_NAMED_EXPORT` comment factory of
`src/comments/shared` applied as in the analyzer. -/
def mkNoNamedExport (exportName : String) : Comment :=
  ⟨CommentId.NO_NAMED_EXPORT, [("export.name", exportName)]⟩

/-- Modelled from the spec: the `NO_PARAMETER` comment factory of
`src/comments/shared` applied as in the analyzer. -/
def mkNoParameter (functionName : String) : Comment :=
  ⟨CommentId.NO_PARAMETER, [("function.name", functionName)]⟩

/-- Modelled from the spec: the `UNEXPECTED_SPLAT_ARGS` comment factory of
`src/comments/shared` applied as in the analyzer. -/
def mkUnexpectedSplatArgs (splatArgName splatArgType : String) : Comment :=
  ⟨CommentId.UNEXPECTED_SPLAT_ARGS,
    [("splat-arg.name", splatArgName), ("parameter.type", splatArgType)]⟩

/-- The `TIP_EXPORT_INLINE` comment declared at the top of the analyzer
file; it takes no template parameters. -/
def tipExportInline : Comment :=
  ⟨CommentId.TIP_EXPORT_INLINE, []⟩

/-- Terminal verdicts of one analysis run. -/
inductive Verdict where
  | Approved
  | Disapproved
  | ReferredToMentor
deriving DecidableEq

/-- A terminal verdict together with the accumulated ordered comment list. -/
structure AnalysisResult where
  verdict : Verdict
  comments : List Comment
deriving DecidableEq

/-- Whether a comment list contains a blocking comment. -/
def hasBlockingComment (comments : List Comment) : Bool :=
  comments.any Comment.blocking

/-- The initializer node types accepted by `isUsingOptimalConstants`:
arrays and function-like expressions. -/
def acceptableTypes : List NodeType :=
  [NodeType.ArrayExpression, NodeType.FunctionExpression,
   NodeType.ArrowFunctionExpression]

/-- Translation of `isUsingOptimalConstants`: exactly one top-level
constant with an Array initializer, and every constant has an initializer
from `acceptableTypes`. -/
def isUsingOptimalConstants (mainConstants : List TopLevelConstant) : Bool :=
  if (mainConstants.filter
        (fun c => c.init == NodeType.ArrayExpression)).length ≠ 1 then
    false
  else if 0 < (mainConstants.filter
        (fun c => !(acceptableTypes.contains c.init))).length then
    false
  else
    true

/-- Translation of `isOptimalMapJoinImplementation`: after the constants
condition, the source returns `false` unconditionally (the line reads
`return false  // still unimplemented`). -/
def isOptimalMapJoinImplementation (facts : SubmissionFacts) : Bool :=
  if !(isUsingOptimalConstants facts.mainConstants) then
    false
  else
    false

/-- Translation of `isOptimalReduceImplementation`: the source body is a
stub that returns `false` for every submission. -/
def isOptimalReduceImplementation (_facts : SubmissionFacts) : Bool :=
  false

/-- Translation of `hasInlineExport`: the export node has an empty
specifier list. The source dereferences `this.mainExport[0]!`; the check is
only ever invoked on submissions whose export exists. -/
def hasInlineExport (facts : SubmissionFacts) : Bool :=
  match facts.mainExport with
  | some e => e.specifiers.length == 0
  | none => false

/-- The comments appended by `checkStructure`: `NO_METHOD` when
`extractMainMethod` found nothing, then `NO_NAMED_EXPORT` when
`extractExport` found nothing. -/
def structureComments (facts : SubmissionFacts) : List Comment :=
  (if facts.mainMethod.isNone then [mkNoMethod "value"] else [])
    ++ (if facts.mainExport.isNone then [mkNoNamedExport "value"] else [])

/-- Translation of `checkStructure`: append the structural comments; if any
commentary exists, `disapprove()` terminates the run with the accumulated
comments (`Except.error`), otherwise the run continues (`Except.ok`). -/
def checkStructure (facts : SubmissionFacts) :
    Except AnalysisResult (List Comment) :=
  if 0 < (structureComments facts).length then
    Except.error ⟨Verdict.Disapproved, structureComments facts⟩
  else
    Except.ok (structureComments facts)

/-- Translation of `checkSignature`: zero parameters is a blocking
`NO_PARAMETER` disapproval; a rest/splat first parameter is a blocking
`UNEXPECTED_SPLAT_ARGS` disapproval carrying the parameter name and its
annotated type. -/
def checkSignature (method : MainMethod) (comments : List Comment) :
    Except AnalysisResult (List Comment) :=
  if method.params.length = 0 then
    Except.error ⟨Verdict.Disapproved,
      comments ++ [mkNoParameter method.idName]⟩
  else
    match method.params with
    | [] => Except.ok comments
    | firstParameter :: _ =>
      if firstParameter.ptype = ParamType.RestElement then
        Except.error ⟨Verdict.Disapproved,
          comments ++ [mkUnexpectedSplatArgs (parameterName firstParameter)
            (annotateType firstParameter.annotatedType)]⟩
      else
        Except.ok comments

/-- Translation of `checkForTips`: when the export is not inline, append
the advisory inline-export tip. -/
def checkForTips (facts : SubmissionFacts) (comments : List Comment) :
    List Comment :=
  if !(hasInlineExport facts) then
    comments ++ [tipExportInline]
  else
    comments

/-- Translation of `checkForOptimalSolutions` together with the fall
through of `execute`: when neither matcher matches, the run continues past
the last check and (modelled from the spec, `AnalyzerImpl` being outside
the provided sources) resolves to the default ReferredToMentor; when one
matches, the tips check runs and `approve()` terminates at Approved. -/
def checkForOptimalSolutions (facts : SubmissionFacts)
    (comments : List Comment) : AnalysisResult :=
  if !(isOptimalMapJoinImplementation facts)
      && !(isOptimalReduceImplementation facts) then
    ⟨Verdict.ReferredToMentor, comments⟩
  else
    ⟨Verdict.Approved, checkForTips facts comments⟩

/-- Outcome of one run: a terminal result, or the modelled runtime fault of
dereferencing an absent main method through the non-null assertion at the
start of `checkSignature` (`this.mainMethod!`). -/
inductive RunOutcome where
  | finished (result : AnalysisResult)
  | nullDeref
deriving DecidableEq

/-- Translation of `execute`: run `checkStructure`, then `checkSignature`
on the extracted main method (the non-null assertion is modelled as the
`nullDeref` outcome when the method is absent), then
`checkForOptimalSolutions`; a blocking stage terminates the run with its
result and no later stage executes. -/
def execute (facts : SubmissionFacts) : RunOutcome :=
  match checkStructure facts with
  | Except.error r => RunOutcome.finished r
  | Except.ok comments =>
    match facts.mainMethod with
    | none => RunOutcome.nullDeref
    | some method =>
      match checkSignature method comments with
      | Except.error r => RunOutcome.finished r
      | Except.ok comments2 =>
        RunOutcome.finished (checkForOptimalSolutions facts comments2)

/-- The canonical color names, position 0 = black through position 9 =
white. -/
def canonicalColorNames : List String :=
  ["black", "brown", "red", "orange", "yellow",
   "green", "blue", "violet", "grey", "white"]

/-- A plain, untyped parameter named colors. -/
def colorsParam : Param :=
  ⟨ParamType.Identifier, "colors", none⟩

/-- Facts of the canonical map-join submission of the spec and of the
analyzer comment block: a single Array constant COLORS, an arrow-function
constant colorCode, and an inline-exported value function of one plain
parameter. -/
def mapJoinFacts : SubmissionFacts :=
  { mainMethod := some ⟨"value", [colorsParam]⟩
  , mainExport := some ⟨[]⟩
  , mainConstants :=
      [ ⟨"COLORS", "const", NodeType.ArrayExpression, []⟩
      , ⟨"colorCode", "const", NodeType.ArrowFunctionExpression, []⟩ ] }

/-- Facts of the canonical reduce submission of the analyzer comment block:
an inline-exported value function of one plain parameter that reverses the
input and reduces it, with a COLORS Array constant and a colorCode helper
constant. -/
def reduceFacts : SubmissionFacts :=
  { mainMethod := some ⟨"value", [colorsParam]⟩
  , mainExport := some ⟨[]⟩
  , mainConstants :=
      [ ⟨"COLORS", "const", NodeType.ArrayExpression, []⟩
      , ⟨"colorCode", "const", NodeType.ArrowFunctionExpression, []⟩ ] }

/-- Constants of a submission whose only non-function-like top-level
constant is an object literal keyed by exactly the ten canonical color
names (the table form of test fixture 423). -/
def objectTableConstants : List TopLevelConstant :=
  [ ⟨"colorCodes", "const", NodeType.ObjectExpression, canonicalColorNames⟩
  , ⟨"value", "const", NodeType.ArrowFunctionExpression, []⟩ ]

/-- Facts of a correct map-join submission exported through a separate
export list (test fixture 145): the export node carries the specifiers
COLORS and value. -/
def separateExportFacts : SubmissionFacts :=
  { mainMethod := some ⟨"value", [colorsParam]⟩
  , mainExport := some ⟨["COLORS", "value"]⟩
  , mainConstants :=
      [ ⟨"COLORS", "const", NodeType.ArrayExpression, []⟩
      , ⟨"colorCode", "const", NodeType.ArrowFunctionExpression, []⟩
      , ⟨"value", "const", NodeType.ArrowFunctionExpression, []⟩ ] }

/-- Facts of a submission that declares and exports a value function with
zero parameters. -/
def zeroParamFacts : SubmissionFacts :=
  { mainMethod := some ⟨"value", []⟩
  , mainExport := some ⟨[]⟩
  , mainConstants := [] }

/-- Facts of a submission whose sole parameter is an untyped rest/splat
parameter named colors. -/
def splatFacts : SubmissionFacts :=
  { mainMethod := some ⟨"value", [⟨ParamType.RestElement, "colors", none⟩]⟩
  , mainExport := some ⟨[]⟩
  , mainConstants := [] }

/-- Facts of a submission with a value function but no export of value. -/
def noExportFacts : SubmissionFacts :=
  { mainMethod := some ⟨"value", [colorsParam]⟩
  , mainExport := none
  , mainConstants := [] }

/-- Facts of a submission with no value function at all. -/
def noMethodFacts : SubmissionFacts :=
  { mainMethod := none
  , mainExport := none
  , mainConstants := [] }

/-- The map-join matcher of the provided sources is a stub: its last line
returns false unconditionally, so no submission matches. -/
theorem isOptimalMapJoinImplementation_false (facts : SubmissionFacts) :
    isOptimalMapJoinImplementation facts = false := by
  unfold isOptimalMapJoinImplementation
  split <;> rfl

/-- The reduce matcher of the provided sources is a stub returning false. -/
theorem isOptimalReduceImplementation_false (facts : SubmissionFacts) :
    isOptimalReduceImplementation facts = false :=
  rfl

/-- Because both matchers are stubs, the optimality stage always falls
through to the ReferredToMentor default with the comments unchanged. -/
theorem checkForOptimalSolutions_eq (facts : SubmissionFacts)
    (comments : List Comment) :
    checkForOptimalSolutions facts comments
      = ⟨Verdict.ReferredToMentor, comments⟩ := by
  simp [checkForOptimalSolutions, isOptimalMapJoinImplementation_false,
    isOptimalReduceImplementation_false]

/-- When both extracts exist, the structure stage records no comment. -/
theorem structureComments_of_some (facts : SubmissionFacts)
    (m : MainMethod) (e : ExportDecl)
    (hm : facts.mainMethod = some m) (he : facts.mainExport = some e) :
    structureComments facts = [] := by
  simp [structureComments, hm, he]

/-- When both extracts exist, the structure check passes with an empty
comment list. -/
theorem checkStructure_ok_of_some (facts : SubmissionFacts)
    (m : MainMethod) (e : ExportDecl)
    (hm : facts.mainMethod = some m) (he : facts.mainExport = some e) :
    checkStructure facts = Except.ok [] := by
  simp [checkStructure, structureComments_of_some facts m e hm he]

/-- Every comment the structure stage can record is blocking. -/
theorem structureComments_blocking (facts : SubmissionFacts) (c : Comment)
    (hc : c ∈ structureComments facts) : c.blocking = true := by
  unfold structureComments at hc
  rcases List.mem_append.mp hc with h | h <;> split at h <;>
    simp only [List.mem_singleton, List.not_mem_nil] at h <;>
    first
      | exact absurd h (by simp)
      | (subst h; rfl)

/-- A nonempty structure comment list contains a blocking comment. -/
theorem structureComments_hasBlocking (facts : SubmissionFacts)
    (h : structureComments facts ≠ []) :
    hasBlockingComment (structureComments facts) = true := by
  cases hsc : structureComments facts with
  | nil => exact absurd hsc h
  | cons a t =>
    have ha : a ∈ structureComments facts := by
      rw [hsc]; exact List.mem_cons_self a t
    have hb : a.blocking = true := structureComments_blocking facts a ha
    simp [hasBlockingComment, hsc, hb]

/-- A failing structure check yields a Disapproved result carrying exactly
the structure comments, which are nonempty. -/
theorem checkStructure_error_spec (facts : SubmissionFacts)
    (r : AnalysisResult) (h : checkStructure facts = Except.error r) :
    r = ⟨Verdict.Disapproved, structureComments facts⟩
      ∧ structureComments facts ≠ []
      ∧ hasBlockingComment r.comments = true := by
  unfold checkStructure at h
  split at h
  · next hlen =>
    injection h with h
    subst h
    have hne : structureComments facts ≠ [] := List.length_pos.mp hlen
    exact ⟨rfl, hne, structureComments_hasBlocking facts hne⟩
  · cases h

/-- A passing structure check yields the empty comment list and implies the
structure comments are empty. -/
theorem checkStructure_ok_spec (facts : SubmissionFacts)
    (cs : List Comment) (h : checkStructure facts = Except.ok cs) :
    cs = [] ∧ structureComments facts = [] := by
  unfold checkStructure at h
  split at h
  · cases h
  · next hlen =>
    have hnil : structureComments facts = [] := by
      cases hsc : structureComments facts with
      | nil => rfl
      | cons a t => rw [hsc] at hlen; exact absurd (by simp) hlen
    injection h with h
    exact ⟨h.symm.trans hnil, hnil⟩

/-- Empty structure comments force the main method to exist. -/
theorem mainMethod_of_structure_nil (facts : SubmissionFacts)
    (h : structureComments facts = []) :
    ∃ m, facts.mainMethod = some m := by
  cases hmm : facts.mainMethod with
  | none => simp [structureComments, hmm] at h
  | some m => exact ⟨m, rfl⟩

/-- A passing signature check leaves the comment list unchanged. -/
theorem checkSignature_ok_eq (m : MainMethod) (cs cs2 : List Comment)
    (h : checkSignature m cs = Except.ok cs2) : cs2 = cs := by
  unfold checkSignature at h
  split at h
  · cases h
  · split at h
    · injection h with h; exact h.symm
    · split at h
      · cases h
      · injection h with h; exact h.symm

/-- A failing signature check started from an empty comment list yields a
Disapproved result whose comment list contains a blocking comment. -/
theorem checkSignature_error_blocking (m : MainMethod) (r : AnalysisResult)
    (h : checkSignature m [] = Except.error r) :
    r.verdict = Verdict.Disapproved
      ∧ hasBlockingComment r.comments = true := by
  unfold checkSignature at h
  split at h
  · injection h with h; subst h
    exact ⟨rfl, rfl⟩
  · split at h
    · cases h
    · split at h
      · injection h with h; subst h
        exact ⟨rfl, rfl⟩
      · cases h

/-- Generic bridge between the boolean contains test used by the constants
matcher and list membership. -/
theorem contains_iff_mem {α : Type} [BEq α] [LawfulBEq α]
    (l : List α) (a : α) : l.contains a = true ↔ a ∈ l :=
  List.elem_iff

/-- C1: the canonical map-join submission (single Array lookup constant,
side-effect-free lookup function, exported map plus Number join) should be
Approved, but the map-join matcher of the sources returns false
unconditionally (its final line is a stub marked still unimplemented), so
the run falls through to ReferredToMentor even though the constants
condition holds. -/
theorem c1_canonical_map_join_referred :
    isUsingOptimalConstants mapJoinFacts.mainConstants = true
      ∧ isOptimalMapJoinImplementation mapJoinFacts = false
      ∧ execute mapJoinFacts
        = RunOutcome.finished ⟨Verdict.ReferredToMentor, []⟩ := by
  decide

/-- C2: the canonical reduce submission (reverse the two colors, reduce
with digit times ten to the index) should be Approved with no blocking
comment, but the reduce matcher of the sources is a stub returning false
for every submission, so the run falls through to ReferredToMentor. -/
theorem c2_canonical_reduce_referred :
    isOptimalReduceImplementation reduceFacts = false
      ∧ execute reduceFacts
        = RunOutcome.finished ⟨Verdict.ReferredToMentor, []⟩ := by
  decide

/-- C4 counterexample: for a submission whose only non-function-like
top-level constant is an object literal keyed by exactly the ten canonical
color names, the constants condition of the map-join matcher does not
hold: `isUsingOptimalConstants` requires exactly one Array-shaped constant
and rejects the Object/Map encoding outright. -/
theorem c4_object_table_rejected :
    isUsingOptimalConstants objectTableConstants = false := by
  decide

/-- C4 amended: the optimal-constants check accepts only the single-Array
encoding: it holds exactly when precisely one top-level constant has an
Array-shaped initializer and every constant is Array- or function-shaped.
An Object/Map-literal table, even keyed by the ten canonical names, is
rejected. -/
theorem c4_constants_single_array_only
    (mainConstants : List TopLevelConstant) :
    isUsingOptimalConstants mainConstants = true ↔
      ((mainConstants.filter
          (fun c => c.init == NodeType.ArrayExpression)).length = 1
        ∧ ∀ c ∈ mainConstants, c.init ∈ acceptableTypes) := by
  unfold isUsingOptimalConstants
  split
  · next h1 =>
    simp only [Bool.false_eq_true, false_iff]
    exact fun hc => h1 hc.1
  · next h1 =>
    split
    · next h2 =>
      simp only [Bool.false_eq_true, false_iff]
      rintro ⟨-, hall⟩
      have hne : mainConstants.filter
          (fun c => !(acceptableTypes.contains c.init)) ≠ [] :=
        List.length_pos.mp h2
      obtain ⟨c, hcmem⟩ := List.exists_mem_of_ne_nil _ hne
      obtain ⟨hcl, hcp⟩ := List.mem_filter.mp hcmem
      rw [Bool.not_eq_true'] at hcp
      have hmem : acceptableTypes.contains c.init = true :=
        (contains_iff_mem acceptableTypes c.init).mpr (hall c hcl)
      rw [hcp] at hmem
      cases hmem
    · next h2 =>
      simp only [true_iff]
      refine ⟨not_not.mp h1, ?_⟩
      intro c hc
      have hzero : (mainConstants.filter
          (fun c => !(acceptableTypes.contains c.init))).length = 0 :=
        Nat.le_zero.mp (Nat.not_lt.mp h2)
      have hnil := List.length_eq_zero.mp hzero
      have hprop := List.filter_eq_nil_iff.mp hnil c hc
      rw [Bool.not_eq_true', Bool.not_eq_false] at hprop
      exact (contains_iff_mem acceptableTypes c.init).mp hprop

/-- C4 amended witness: the canonical map-join constants satisfy the
single-Array characterization, hence the constants condition holds. -/
theorem c4_constants_single_array_only_witness :
    isUsingOptimalConstants mapJoinFacts.mainConstants = true :=
  (c4_constants_single_array_only mapJoinFacts.mainConstants).mpr
    ⟨by decide, by decide⟩

/-- C5: a correct map-join submission exported via a separate export list
should be Approved with exactly the inline-export tip, but since the
map-join matcher of the sources is stubbed to false, the tips check is
never reached: the run ends ReferredToMentor with an empty comment list,
even though the export is indeed not inline and the constants condition
holds. -/
theorem c5_separate_export_map_join_referred :
    hasInlineExport separateExportFacts = false
      ∧ isUsingOptimalConstants separateExportFacts.mainConstants = true
      ∧ execute separateExportFacts
        = RunOutcome.finished ⟨Verdict.ReferredToMentor, []⟩ := by
  decide

/-- C6: a submission that passes the structure check and whose value
function declares zero parameters is Disapproved with the no-parameter
comment, regardless of any optimality pattern. -/
theorem c6_zero_parameters_disapproved (facts : SubmissionFacts)
    (method : MainMethod) (e : ExportDecl)
    (hm : facts.mainMethod = some method)
    (he : facts.mainExport = some e)
    (hp : method.params = []) :
    execute facts = RunOutcome.finished
      ⟨Verdict.Disapproved, [mkNoParameter method.idName]⟩ := by
  have hs := checkStructure_ok_of_some facts method e hm he
  simp [execute, hs, hm, checkSignature, hp]

/-- C6 witness: the concrete zero-parameter submission is Disapproved with
the no-parameter comment. -/
theorem c6_zero_parameters_disapproved_witness :
    execute zeroParamFacts = RunOutcome.finished
      ⟨Verdict.Disapproved, [mkNoParameter "value"]⟩ :=
  c6_zero_parameters_disapproved zeroParamFacts ⟨"value", []⟩ ⟨[]⟩
    rfl rfl rfl

/-- C7: a submission that passes the structure check and whose sole
parameter is a rest/splat parameter is Disapproved with the unexpected
splat comment carrying the parameter name and its annotated type, where a
missing annotation renders as untyped. -/
theorem c7_splat_parameter_disapproved (facts : SubmissionFacts)
    (method : MainMethod) (p : Param) (e : ExportDecl)
    (hm : facts.mainMethod = some method)
    (he : facts.mainExport = some e)
    (hp : method.params = [p])
    (hrest : p.ptype = ParamType.RestElement) :
    execute facts = RunOutcome.finished
        ⟨Verdict.Disapproved,
          [mkUnexpectedSplatArgs (parameterName p)
            (annotateType p.annotatedType)]⟩
      ∧ annotateType none = "untyped" := by
  refine ⟨?_, rfl⟩
  have hs := checkStructure_ok_of_some facts method e hm he
  simp [execute, hs, hm, checkSignature, hp, hrest]

/-- C7 witness: the concrete splat-parameter submission is Disapproved with
the unexpected splat comment naming the parameter colors of type untyped. -/
theorem c7_splat_parameter_disapproved_witness :
    execute splatFacts = RunOutcome.finished
        ⟨Verdict.Disapproved, [mkUnexpectedSplatArgs "colors" "untyped"]⟩
      ∧ annotateType none = "untyped" :=
  c7_splat_parameter_disapproved splatFacts
    ⟨"value", [⟨ParamType.RestElement, "colors", none⟩]⟩
    ⟨ParamType.RestElement, "colors", none⟩ ⟨[]⟩ rfl rfl rfl rfl

/-- C8: a submission lacking an exported value function is Disapproved and
its comment list contains the no-named-export comment. -/
theorem c8_no_named_export_disapproved (facts : SubmissionFacts)
    (he : facts.mainExport = none) :
    ∃ comments, execute facts
        = RunOutcome.finished ⟨Verdict.Disapproved, comments⟩
      ∧ mkNoNamedExport "value" ∈ comments := by
  refine ⟨structureComments facts, ?_, ?_⟩
  · have hlen : 0 < (structureComments facts).length := by
      cases hmm : facts.mainMethod <;> simp [structureComments, he, hmm]
    simp [execute, checkStructure, hlen]
  · cases hmm : facts.mainMethod <;> simp [structureComments, he, hmm]

/-- C8 witness: the concrete submission with no export of value is
Disapproved with the no-named-export comment in its list. -/
theorem c8_no_named_export_disapproved_witness :
    ∃ comments, execute noExportFacts
        = RunOutcome.finished ⟨Verdict.Disapproved, comments⟩
      ∧ mkNoNamedExport "value" ∈ comments :=
  c8_no_named_export_disapproved noExportFacts rfl

/-- C3: the verdict state machine invariant. A blocking structure or
signature failure terminates the run at Disapproved with exactly the
comments recorded up to and including the blocking one, and no later stage
executes; a finished run is Approved exactly when no blocking comment was
recorded and one of the optimal-pattern matchers returned true; it is
Disapproved exactly when a blocking comment was recorded; and it is
ReferredToMentor whenever no blocking comment was recorded and neither
pattern matched. -/
theorem c3_verdict_state_machine_invariant (facts : SubmissionFacts) :
    (∀ r, checkStructure facts = Except.error r →
      execute facts = RunOutcome.finished r
        ∧ r.verdict = Verdict.Disapproved)
    ∧ (∀ method comments r, facts.mainMethod = some method →
        checkStructure facts = Except.ok comments →
        checkSignature method comments = Except.error r →
        execute facts = RunOutcome.finished r
          ∧ r.verdict = Verdict.Disapproved)
    ∧ (∀ r, execute facts = RunOutcome.finished r →
        (r.verdict = Verdict.Approved ↔
          (hasBlockingComment r.comments = false
            ∧ (isOptimalMapJoinImplementation facts = true
              ∨ isOptimalReduceImplementation facts = true)))
        ∧ (r.verdict = Verdict.Disapproved ↔
            hasBlockingComment r.comments = true)
        ∧ (hasBlockingComment r.comments = false →
            isOptimalMapJoinImplementation facts = false →
            isOptimalReduceImplementation facts = false →
            r.verdict = Verdict.ReferredToMentor)) := by
  refine ⟨?_, ?_, ?_⟩
  · intro r h
    obtain ⟨hr, -, -⟩ := checkStructure_error_spec facts r h
    exact ⟨by simp [execute, h], by rw [hr]⟩
  · intro method comments r hm hok hsig
    refine ⟨by simp [execute, hok, hm, hsig], ?_⟩
    obtain ⟨hcs, -⟩ := checkStructure_ok_spec facts comments hok
    subst hcs
    exact (checkSignature_error_blocking method r hsig).1
  · intro r hr
    cases hcs : checkStructure facts with
    | error r0 =>
      have hex : execute facts = RunOutcome.finished r0 := by
        simp [execute, hcs]
      rw [hr] at hex
      injection hex with hex
      obtain ⟨-, -, hblock⟩ := checkStructure_error_spec facts r0 hcs
      obtain ⟨hv, -⟩ :
          r0.verdict = Verdict.Disapproved ∧ True := by
        obtain ⟨hr0, -, -⟩ := checkStructure_error_spec facts r0 hcs
        exact ⟨by rw [hr0], trivial⟩
      subst hex
      refine ⟨?_, ?_, ?_⟩
      · simp [hv, hblock]
      · simp [hv, hblock]
      · intro hf _ _
        simp [hblock] at hf
    | ok cs =>
      obtain ⟨hcsnil, hscnil⟩ := checkStructure_ok_spec facts cs hcs
      subst hcsnil
      obtain ⟨m, hm⟩ := mainMethod_of_structure_nil facts hscnil
      cases hsig : checkSignature m [] with
      | error r0 =>
        have hex : execute facts = RunOutcome.finished r0 := by
          simp [execute, hcs, hm, hsig]
        rw [hr] at hex
        injection hex with hex
        obtain ⟨hv, hblock⟩ := checkSignature_error_blocking m r0 hsig
        subst hex
        refine ⟨?_, ?_, ?_⟩
        · simp [hv, hblock]
        · simp [hv, hblock]
        · intro hf _ _
          simp [hblock] at hf
      | ok cs2 =>
        have hcs2 : cs2 = [] := checkSignature_ok_eq m [] cs2 hsig
        subst hcs2
        have hex : execute facts
            = RunOutcome.finished ⟨Verdict.ReferredToMentor, []⟩ := by
          simp [execute, hcs, hm, hsig, checkForOptimalSolutions_eq]
        rw [hr] at hex
        injection hex with hex
        subst hex
        refine ⟨?_, ?_, ?_⟩
        · simp [isOptimalMapJoinImplementation_false,
            isOptimalReduceImplementation_false, hasBlockingComment]
        · simp [hasBlockingComment]
        · intro _ _ _
          rfl

/-- C3 witness: the structure stage of the submission with no value
function blocks, and the run terminates at Disapproved carrying exactly
the two structural comments. -/
theorem c3_verdict_state_machine_invariant_witness :
    execute noMethodFacts = RunOutcome.finished
        ⟨Verdict.Disapproved,
          [mkNoMethod "value", mkNoNamedExport "value"]⟩
      ∧ (⟨Verdict.Disapproved,
          [mkNoMethod "value", mkNoNamedExport "value"]⟩
            : AnalysisResult).verdict = Verdict.Disapproved :=
  (c3_verdict_state_machine_invariant noMethodFacts).1
    ⟨Verdict.Disapproved, [mkNoMethod "value", mkNoNamedExport "value"]⟩
    rfl

/-- C9: the engine is deterministic and idempotent: two runs on identical
facts produce the same terminal verdict and the same ordered comment
list. -/
theorem c9_deterministic_idempotent (facts1 facts2 : SubmissionFacts)
    (hsame : facts1 = facts2) (r1 r2 : AnalysisResult)
    (h1 : execute facts1 = RunOutcome.finished r1)
    (h2 : execute facts2 = RunOutcome.finished r2) :
    r1.verdict = r2.verdict ∧ r1.comments = r2.comments := by
  subst hsame
  rw [h1] at h2
  injection h2 with h
  rw [h]
  exact ⟨rfl, rfl⟩

/-- C9 witness: two runs on the zero-parameter submission agree on verdict
and comment list. -/
theorem c9_deterministic_idempotent_witness :
    (⟨Verdict.Disapproved, [mkNoParameter "value"]⟩
        : AnalysisResult).verdict
      = (⟨Verdict.Disapproved, [mkNoParameter "value"]⟩
        : AnalysisResult).verdict
    ∧ (⟨Verdict.Disapproved, [mkNoParameter "value"]⟩
        : AnalysisResult).comments
      = (⟨Verdict.Disapproved, [mkNoParameter "value"]⟩
        : AnalysisResult).comments :=
  c9_deterministic_idempotent zeroParamFacts zeroParamFacts rfl
    ⟨Verdict.Disapproved, [mkNoParameter "value"]⟩
    ⟨Verdict.Disapproved, [mkNoParameter "value"]⟩
    (by decide) (by decide)

/-- C10: every run finishes with a terminal result, never with the
modelled null dereference of the non-null assertion at the start of
checkSignature: whenever the main method is absent, checkStructure already
terminates the run at Disapproved, so checkSignature only executes with
the method present. -/
theorem c10_main_method_present (facts : SubmissionFacts) :
    (∃ r, execute facts = RunOutcome.finished r)
    ∧ (facts.mainMethod = none →
        ∃ r, checkStructure facts = Except.error r
          ∧ r.verdict = Verdict.Disapproved) := by
  constructor
  · cases hcs : checkStructure facts with
    | error r0 => exact ⟨r0, by simp [execute, hcs]⟩
    | ok cs =>
      obtain ⟨hcsnil, hscnil⟩ := checkStructure_ok_spec facts cs hcs
      subst hcsnil
      obtain ⟨m, hm⟩ := mainMethod_of_structure_nil facts hscnil
      cases hsig : checkSignature m [] with
      | error r0 => exact ⟨r0, by simp [execute, hcs, hm, hsig]⟩
      | ok cs2 =>
        exact ⟨checkForOptimalSolutions facts cs2,
          by simp [execute, hcs, hm, hsig]⟩
  · intro hnone
    have hlen : 0 < (structureComments facts).length := by
      simp [structureComments, hnone]
    exact ⟨⟨Verdict.Disapproved, structureComments facts⟩,
      by simp [checkStructure, hlen], rfl⟩

/-- C10 witness: for the submission with no value function the structure
check itself terminates the run at Disapproved. -/
theorem c10_main_method_present_witness :
    ∃ r, checkStructure noMethodFacts = Except.error r
      ∧ r.verdict = Verdict.Disapproved :=
  (c10_main_method_present noMethodFacts).2 rfl

end ResistorColorDuo
